import Mathlib

/-!
# Verification of the EMG automated-capture orchestrator

A shallow embedding of the core of the EMG-Classifier-RT repository:

* `GestureSessionController` (src/system_data/session_controller.py) — the
  session state machine driving the automated capture schedule;
* `EMGProcessor` (src/Toma_de_datos/emg_processor.py) — the transport
  ingestor: line parsing, bounded frame queue, latest-frame cache, liveness;
* `GestureDatasetManager` (src/Toma_de_datos/dataset_manager.py) — the sample
  recorder assigning monotonic sample numbers;
* `AutoEMGApp._on_emg_data_ready` / `_stop_session`
  (src/Toma_de_datos/main_app.py) — the recorder glue binding frames to the
  state machine's current gesture cursor.

Modelling conventions:

* Python wall-clock instants (`time.time()`, `datetime.now()`) are modelled
  as integer seconds.  Every duration the source compares against is an
  integer number of seconds, and all claims are about whole-second tick
  instants, so the restriction is exact for everything proved here (the
  `int(elapsed)` truncation in `_update_countdown` is the identity on
  integer clocks).
* Parsed channel values (`float(...)`) are modelled by `PyFloat`, the exact
  decimal value of the parsed literal.  The modelled code never performs
  arithmetic on channel values — they are parsed, stored and copied — so the
  representation is faithful for every use.
* Callback invocations (`on_state_change`, `on_recording_start`, ...) are
  modelled as an event list accumulated in the controller state, appended
  exactly where the source invokes the corresponding callback.
-/

/-- `SessionState` enum of src/system_data/session_controller.py. -/
inductive SessionState
  | idle | preparing | countdown | recording | resting | completed | paused | error
deriving DecidableEq

/-- The `.value` string of each `SessionState` enum member. -/
def state_value : SessionState → String
  | .idle => "idle"
  | .preparing => "preparing"
  | .countdown => "countdown"
  | .recording => "recording"
  | .resting => "resting"
  | .completed => "completed"
  | .paused => "paused"
  | .error => "error"

/-- One callback invocation raised by the controller.  Each constructor
mirrors one of the `on_*` callback fields of `GestureSessionController`,
carrying the data the source passes to the callback (for dict arguments,
the fields the claims observe). -/
inductive SessionEvent
  | state_change (old new : SessionState)
  | gesture_change (gesture_name : String) (cycle_number : Nat)
  | countdown_tick (remaining : Int)
  | recording_start (gesture_name : String) (cycle_number : Nat)
  | recording_end (gesture_name : String) (cycle_number : Nat) (samples : Nat)
  | session_complete (total_samples : Nat)
  | error_event (message : String)
deriving DecidableEq

/-- The `self.config` dict built by `configure_session` (lines 87-94). -/
structure SessionConfig where
  selected_gestures : List String
  series_count : Int
  duration_per_gesture : Int
  rest_time : Int
  total_gestures : Nat
  samples_per_gesture_target : Int
deriving DecidableEq

/-- The dict returned by `get_current_gesture_info` (lines 218-239).
In the `NINGUNO` branch the Python dict omits `total_cycles`; callers read
it with `.get('total_cycles', 0)`, so that branch carries `0` here. -/
structure GestureInfo where
  gesture_name : String
  gesture_index : Int
  series_number : Nat
  cycle_number : Nat
  total_cycles : Int
deriving DecidableEq

/-- State of a `GestureSessionController` instance.  `config = none` models
the initial empty dict `{}` (falsy in the `if not self.config` tests);
`stats_total_recordings_planned = none` models that key being absent from
`session_stats` before the first `configure_session` (Python would raise
`KeyError` on a `get_session_status` call in that unconfigured state; no
claim exercises it, and the model returns progress 0 there).
`countdown_start_time` / `rest_start_time` model the `hasattr`-guarded
attributes `_countdown_start_time` / `_rest_start_time`. -/
structure Controller where
  state : SessionState
  config : Option SessionConfig
  current_gesture_index : Nat
  current_series : Nat
  current_cycle : Nat
  total_cycles_user_defined : Int
  samples_captured_this_recording : Nat
  countdown_remaining : Int
  recording_start_time : Int
  last_update_time : Int
  countdown_start_time : Option Int
  rest_start_time : Option Int
  stats_start_time : Option Int
  stats_total_samples : Nat
  stats_gestures_completed : List (String × Nat)
  stats_series_completed : Nat
  stats_total_recordings_planned : Option Int
  events : List SessionEvent
deriving DecidableEq

/-- `GestureSessionController.__init__` (lines 25-57). -/
def initial_controller : Controller where
  state := .idle
  config := none
  current_gesture_index := 0
  current_series := 0
  current_cycle := 0
  total_cycles_user_defined := 0
  samples_captured_this_recording := 0
  countdown_remaining := 0
  recording_start_time := 0
  last_update_time := 0
  countdown_start_time := none
  rest_start_time := none
  stats_start_time := none
  stats_total_samples := 0
  stats_gestures_completed := []
  stats_series_completed := 0
  stats_total_recordings_planned := none
  events := []

/-- `_change_state` (lines 399-408): set the new state, delete
`_countdown_start_time` unless the new state is COUNTDOWN, and fire
`on_state_change(old, new)`. -/
def change_state (c : Controller) (new : SessionState) : Controller :=
  { c with
    state := new
    countdown_start_time :=
      if new = SessionState.countdown then c.countdown_start_time else none
    events := c.events ++ [SessionEvent.state_change c.state new] }

/-- `_trigger_error` (lines 410-416): transition to ERROR and fire `on_error`. -/
def trigger_error (c : Controller) (message : String) : Controller :=
  let c1 := change_state c SessionState.error
  { c1 with events := c1.events ++ [SessionEvent.error_event message] }

/-- `_complete_session` (lines 388-397). -/
def complete_session (c : Controller) : Controller :=
  let c1 := change_state c SessionState.completed
  { c1 with events := c1.events ++ [SessionEvent.session_complete c.stats_total_samples] }

/-- `get_current_gesture_info` (lines 218-239). -/
def get_current_gesture_info (c : Controller) : GestureInfo :=
  match c.config with
  | none => ⟨"NINGUNO", -1, 0, 0, 0⟩
  | some cfg =>
    if c.current_gesture_index ≥ cfg.selected_gestures.length then
      ⟨"NINGUNO", -1, 0, 0, 0⟩
    else
      ⟨cfg.selected_gestures.getD c.current_gesture_index "",
       (c.current_gesture_index : Int),
       c.current_series + 1, c.current_cycle + 1, c.total_cycles_user_defined⟩

/-- `self.session_stats['gestures_completed'][name] += 1` (line 361).
All reachable calls have `name` present (seeded by `configure_session`);
on a missing key Python would raise `KeyError`. -/
def bump_completed (l : List (String × Nat)) (name : String) : List (String × Nat) :=
  l.map fun p => if p.1 = name then (p.1, p.2 + 1) else p

/-- Number of configured gestures, `len(self.config['selected_gestures'])`,
with 0 when `config` is the empty dict. -/
def num_gestures (c : Controller) : Nat :=
  (c.config.map fun cfg => cfg.selected_gestures.length).getD 0

/-- Configured rest time `self.config['rest_time']` (0 if unconfigured,
which no reachable call hits). -/
def cfg_rest_time (c : Controller) : Int :=
  (c.config.map fun cfg => cfg.rest_time).getD 0

/-- Tail of `_start_next_recording` (lines 310-319): fire
`on_gesture_change`, load the countdown from `rest_time`, enter COUNTDOWN. -/
def prepare_recording (c : Controller) : Controller :=
  let gi := get_current_gesture_info c
  let c1 := { c with
    events := c.events ++ [SessionEvent.gesture_change gi.gesture_name gi.cycle_number]
    countdown_remaining := cfg_rest_time c }
  change_state c1 SessionState.countdown

/-- `_start_next_recording` (lines 294-319). -/
def start_next_recording (c : Controller) : Controller :=
  if (c.current_cycle : Int) ≥ c.total_cycles_user_defined then
    complete_session c
  else if c.current_gesture_index ≥ num_gestures c then
    let c2 := { c with current_gesture_index := 0, current_cycle := c.current_cycle + 1 }
    if (c2.current_cycle : Int) ≥ c2.total_cycles_user_defined then
      complete_session c2
    else
      prepare_recording c2
  else
    prepare_recording c

/-- `_start_recording` (lines 335-346); `now` stands for its `time.time()`. -/
def start_recording (c : Controller) (now : Int) : Controller :=
  let c1 := { c with recording_start_time := now, samples_captured_this_recording := 0 }
  let gi := get_current_gesture_info c1
  let c2 := change_state c1 SessionState.recording
  { c2 with events := c2.events ++ [SessionEvent.recording_start gi.gesture_name gi.cycle_number] }

/-- `_update_countdown` (lines 321-333).  The source computes
`max(0, rest_time - int(elapsed))`; `int(...)` is the identity on the
integer clock. -/
def update_countdown (c : Controller) (now : Int) : Controller :=
  let start := c.countdown_start_time.getD now
  let c1 := { c with countdown_start_time := some start }
  let elapsed := now - start
  let remaining := max 0 (cfg_rest_time c1 - elapsed)
  let c2 := { c1 with
    countdown_remaining := remaining
    events := c1.events ++ [SessionEvent.countdown_tick remaining] }
  if remaining ≤ 0 then start_recording c2 now else c2

/-- `_stop_recording` (lines 355-374); `now` stands for its `time.time()`. -/
def stop_recording (c : Controller) (now : Int) : Controller :=
  let gi := get_current_gesture_info c
  let c1 := { c with
    stats_gestures_completed := bump_completed c.stats_gestures_completed gi.gesture_name
    events := c.events ++
      [SessionEvent.recording_end gi.gesture_name gi.cycle_number c.samples_captured_this_recording] }
  let c2 := { c1 with current_gesture_index := c1.current_gesture_index + 1 }
  let c3 := change_state c2 SessionState.resting
  { c3 with rest_start_time := some now }

/-- `_update_recording` (lines 348-353). -/
def update_recording (c : Controller) (now : Int) : Controller :=
  let dur := (c.config.map fun cfg => cfg.duration_per_gesture).getD 0
  if now - c.recording_start_time ≥ dur then stop_recording c now else c

/-- `_update_resting` (lines 376-386): after 1.0 s of rest, go back to
PREPARING and start the next recording. -/
def update_resting (c : Controller) (now : Int) : Controller :=
  let start := c.rest_start_time.getD now
  let c1 := { c with rest_start_time := some start }
  if now - start ≥ 1 then
    start_next_recording (change_state c1 SessionState.preparing)
  else c1

/-- The dict returned by `get_session_status` (lines 241-263), restricted to
the fields the claims observe (`estimated_time_remaining` is a formatted
display string and is not modelled). -/
structure SessionStatus where
  state : SessionState
  current_gesture : GestureInfo
  countdown_remaining : Int
  progress_percentage : ℚ
  stats_total_samples : Nat
  recording_active : Bool
  samples_this_recording : Nat

/-- `get_session_status` (lines 241-263), including the progress formula
`min(100, (cycle * len(gestures) + gesture_index) / planned * 100)`
(a Python float division, modelled exactly in `ℚ`). -/
def get_session_status (c : Controller) : SessionStatus :=
  let progress : ℚ :=
    match c.stats_total_recordings_planned with
    | none => 0
    | some planned =>
      if planned > 0 then
        min 100 ((((c.current_cycle * num_gestures c + c.current_gesture_index : Nat) : ℚ)
          / (planned : ℚ)) * 100)
      else 0
  { state := c.state
    current_gesture := get_current_gesture_info c
    countdown_remaining := c.countdown_remaining
    progress_percentage := progress
    stats_total_samples := c.stats_total_samples
    recording_active := decide (c.state = SessionState.recording)
    samples_this_recording := c.samples_captured_this_recording }

/-- `update` (lines 184-203); `now` stands for its `time.time()`. -/
def update (c : Controller) (now : Int) : Controller × SessionStatus :=
  let c1 :=
    if c.state = SessionState.countdown then update_countdown c now
    else if c.state = SessionState.recording then update_recording c now
    else if c.state = SessionState.resting then update_resting c now
    else c
  let c2 := { c1 with last_update_time := now }
  (c2, get_session_status c2)

/-- `configure_session` (lines 59-120).  Returns the controller together
with the Python `bool` result. -/
def configure_session (c : Controller) (selected_gestures : List String)
    (series_count : Int) (duration_per_gesture : Int) (rest_time : Int)
    (user_cycles : Int) : Controller × Bool :=
  if selected_gestures = [] then
    (trigger_error c "No se seleccionaron gestos para capturar", false)
  else if duration_per_gesture < 1 ∨ duration_per_gesture > 60 then
    (trigger_error c "Duración por gesto debe estar entre 1 y 60 segundos", false)
  else
    let total := if user_cycles > 0 then user_cycles else series_count
    ({ c with
        config := some
          { selected_gestures := selected_gestures
            series_count := series_count
            duration_per_gesture := duration_per_gesture
            rest_time := rest_time
            total_gestures := selected_gestures.length
            samples_per_gesture_target := 30 * duration_per_gesture }
        total_cycles_user_defined := total
        current_gesture_index := 0
        current_series := 0
        current_cycle := 0
        samples_captured_this_recording := 0
        stats_start_time := none
        stats_total_samples := 0
        stats_gestures_completed := selected_gestures.eraseDups.map fun g => (g, 0)
        stats_series_completed := 0
        stats_total_recordings_planned := some ((selected_gestures.length : Int) * total) },
     true)

/-- `start_session` (lines 122-149); `now` stands for `datetime.now()`. -/
def start_session (c : Controller) (now : Int) : Controller × Bool :=
  if c.state ≠ SessionState.idle then
    (trigger_error c ("No se puede iniciar sesión en estado " ++ state_value c.state), false)
  else
    match c.config with
    | none => (trigger_error c "Sesión no configurada", false)
    | some _ =>
      let c1 := { c with
        stats_start_time := some now
        current_gesture_index := 0
        current_series := 0
        current_cycle := 0 }
      (start_next_recording (change_state c1 SessionState.preparing), true)

/-- `stop_session` (lines 151-165). -/
def stop_session (c : Controller) : Controller × Bool :=
  if c.state = SessionState.idle then (c, true)
  else (change_state c SessionState.idle, true)

/-- `pause_session` (lines 167-173). -/
def pause_session (c : Controller) : Controller × Bool :=
  if c.state = SessionState.countdown ∨ c.state = SessionState.recording ∨
      c.state = SessionState.resting then
    (change_state c SessionState.paused, true)
  else (c, false)

/-- `resume_session` (lines 175-182). -/
def resume_session (c : Controller) : Controller × Bool :=
  if c.state = SessionState.paused then
    (start_next_recording (change_state c SessionState.preparing), true)
  else (c, false)

/-- `increment_sample_count` (lines 205-216). -/
def increment_sample_count (c : Controller) : Controller × Bool :=
  if c.state = SessionState.recording then
    ({ c with
        samples_captured_this_recording := c.samples_captured_this_recording + 1
        stats_total_samples := c.stats_total_samples + 1 }, true)
  else (c, false)

/-!
## Transport ingestor: `EMGProcessor` (src/Toma_de_datos/emg_processor.py)

String operations are modelled over the character list of the (already
stripped) line, mirroring Python `in`, `startswith`, `split(",")`,
`str.isdigit`, `int(...)` and `float(...)` on the grammar the device emits
(optional sign, decimal digits, optional fractional part; exponent forms
never produced by the ESP32 are out of scope).
-/

/-- The exact decimal value a Python `float(...)` literal parses to:
`mantissa / 10 ^ frac_digits`.  The modelled code stores and copies channel
values but never computes with them, so this representation is faithful. -/
structure PyFloat where
  mantissa : Int
  frac_digits : Nat
deriving DecidableEq

/-- `listPrefixOf pat l`: Python-style "l starts with pat" on char lists. -/
def listPrefixOf : List Char → List Char → Bool
  | [], _ => true
  | _ :: _, [] => false
  | a :: as, b :: bs => a = b && listPrefixOf as bs

/-- Python `pat in s` (substring containment) on char lists. -/
def listContainsSub (pat : List Char) : List Char → Bool
  | [] => pat.isEmpty
  | c :: rest => listPrefixOf pat (c :: rest) || listContainsSub pat rest

/-- Python `s.split(sep)` for a one-character separator, on char lists. -/
def splitOnChar (sep : Char) : List Char → List (List Char)
  | [] => [[]]
  | c :: rest =>
    let r := splitOnChar sep rest
    if c = sep then [] :: r
    else
      match r with
      | [] => [[c]]
      | h :: t => (c :: h) :: t

/-- Python `str.isdigit`: nonempty and all digits. -/
def pyIsDigit (l : List Char) : Bool := !l.isEmpty && l.all Char.isDigit

/-- Digit string to natural number. -/
def digitsToNat (l : List Char) : Nat :=
  l.foldl (fun acc c => acc * 10 + (c.toNat - '0'.toNat)) 0

/-- Python `int(str)`: optional sign followed by digits (else raises, here `none`). -/
def pyParseInt : List Char → Option Int
  | '-' :: rest => if pyIsDigit rest then some (-(digitsToNat rest : Int)) else none
  | '+' :: rest => if pyIsDigit rest then some (digitsToNat rest : Int) else none
  | l => if pyIsDigit l then some (digitsToNat l : Int) else none

/-- Python `float(str)` on the device grammar: digits with an optional
single decimal point, at least one digit overall. -/
def pyParseFloatCore (l : List Char) : Option PyFloat :=
  match splitOnChar '.' l with
  | [ip] => if pyIsDigit ip then some ⟨(digitsToNat ip : Int), 0⟩ else none
  | [ip, fp] =>
    if (!ip.isEmpty || !fp.isEmpty) && ip.all Char.isDigit && fp.all Char.isDigit then
      some ⟨((digitsToNat ip * 10 ^ fp.length + digitsToNat fp : Nat) : Int), fp.length⟩
    else none
  | _ => none

/-- Python `float(str)` with optional sign. -/
def pyParseFloat : List Char → Option PyFloat
  | '-' :: rest => (pyParseFloatCore rest).map fun q => ⟨-q.mantissa, q.frac_digits⟩
  | '+' :: rest => pyParseFloatCore rest
  | l => pyParseFloatCore l

/-- The fields extracted from one valid CSV data line (lines 144-151 of
emg_processor.py): `timestamp,session_time,emg1,emg2,emg3,movement_id[,movement_name]`. -/
structure ParsedFrame where
  timestamp : Int
  session_time : Int
  emg1 : PyFloat
  emg2 : PyFloat
  emg3 : PyFloat
  movement_id : Int
  movement_name : String
deriving DecidableEq

/-- Parse a CSV data line per lines 142-151: requires a comma, at least 6
fields, integer fields 0-1 and float fields 2-4; `movement_id` falls back to
0 unless field 5 `isdigit()`; `movement_name` falls back to `"AUTO"` when
there is no seventh field.  `none` models the silently swallowed
`ValueError` of the source (lines 184-186). -/
def parse_csv_frame (cs : List Char) : Option ParsedFrame :=
  if listContainsSub [','] cs && (splitOnChar ',' cs).length ≥ 6 then
    let parts := splitOnChar ',' cs
    match pyParseInt (parts.getD 0 []), pyParseInt (parts.getD 1 []),
        pyParseFloat (parts.getD 2 []), pyParseFloat (parts.getD 3 []),
        pyParseFloat (parts.getD 4 []) with
    | some ts, some st, some e1, some e2, some e3 =>
      let p5 := parts.getD 5 []
      let movement_id : Int := if pyIsDigit p5 then (pyParseInt p5).getD 0 else 0
      let movement_name : String :=
        if parts.length > 6 then String.mk (parts.getD 6 []) else "AUTO"
      some ⟨ts, st, e1, e2, e3, movement_id, movement_name⟩
    | _, _, _, _, _ => none
  else none

/-- The `emg_data` dict built at lines 154-164.  `receipt_time` models the
`datetime.now().isoformat()` stored under `esp32_timestamp` there. -/
structure EMGData where
  timestamp : Int
  session_time : Int
  emg1 : PyFloat
  emg2 : PyFloat
  emg3 : PyFloat
  movement_id : Int
  movement_name : String
  receipt_time : Int
deriving DecidableEq

/-- Build the `emg_data` dict from a parsed frame at receipt time `now`. -/
def mk_emg_data (f : ParsedFrame) (now : Int) : EMGData :=
  ⟨f.timestamp, f.session_time, f.emg1, f.emg2, f.emg3,
   f.movement_id, f.movement_name, now⟩

/-- How `_process_serial_line` (lines 115-190) classifies one stripped line,
in the source's branch order. -/
inductive LineClass
  | csv_start
  | csv_end
  | header
  | info
  | status
  | data_frame (f : ParsedFrame)
  | junk
deriving DecidableEq

/-- The branch chain of `_process_serial_line`.  A line with enough comma
fields whose numeric fields fail to parse falls into `junk` (the silently
passed `ValueError`/`IndexError` of lines 184-186), as does any other
unrecognized line (the method just falls through). -/
def classify_line (line : String) : LineClass :=
  let cs := line.data
  if line = "CSV_START" then .csv_start
  else if line = "CSV_END" then .csv_end
  else if listContainsSub "timestamp,session_time".data cs then .header
  else if listContainsSub "SISTEMA EMG AUTOMÁTICO".data cs || listContainsSub "===".data cs then
    .info
  else if listPrefixOf "SISTEMA:".data cs then .status
  else
    match parse_csv_frame cs with
    | some f => .data_frame f
    | none => .junk

/-- State of an `EMGProcessor` instance (`__init__`, lines 29-46).
`serial_is_open` models `self.serial_connection` (`none` = Python `None`,
`some b` = a handle with `is_open = b`); `reading_thread_alive` models
whether the reader thread is running; `sample_count` models the
`hasattr`-guarded `_sample_count` attribute. -/
structure EMGProc where
  port : String
  connected : Bool
  stop_reading : Bool
  reading_thread_alive : Bool
  serial_is_open : Option Bool
  data_queue : List EMGData
  last_emg_data : Option EMGData
  last_detection_time : Option Int
  session_active : Bool
  current_movement : Int × String
  sample_count : Option Nat
deriving DecidableEq

/-- `EMGProcessor.__init__` with the default port. -/
def initial_processor : EMGProc where
  port := "COM3"
  connected := false
  stop_reading := false
  reading_thread_alive := false
  serial_is_open := none
  data_queue := []
  last_emg_data := none
  last_detection_time := none
  session_active := true
  current_movement := (0, "AUTO")
  sample_count := none

/-- `queue.Queue(maxsize=100).full()`. -/
def queue_full (p : EMGProc) : Bool := p.data_queue.length ≥ 100

/-- `_process_serial_line` (lines 115-190); `now` stands for the
`time.time()` calls at lines 136 and 168.  On a valid data line: overwrite
the latest-frame cache and liveness clock, update `current_movement`,
enqueue only if the queue is not full (line 172), and bump `_sample_count`. -/
def process_serial_line (p : EMGProc) (line : String) (now : Int) : EMGProc :=
  match classify_line line with
  | .csv_start => { p with session_active := true }
  | .csv_end => { p with session_active := false }
  | .header => p
  | .info => p
  | .status => { p with last_detection_time := some now }
  | .data_frame f =>
    let d := mk_emg_data f now
    { p with
      last_emg_data := some d
      last_detection_time := some now
      current_movement := (f.movement_id, f.movement_name)
      data_queue := if queue_full p then p.data_queue else p.data_queue ++ [d]
      sample_count := some (p.sample_count.getD 0 + 1) }
  | .junk => p

/-- `is_sensor_connected` (lines 192-204); `now` stands for `time.time()`. -/
def is_sensor_connected (p : EMGProc) (now : Int) : Bool :=
  if !p.connected then false
  else
    match p.last_detection_time with
    | none => false
    | some t => decide (now - t ≤ 5)

/-- `disconnect` (lines 79-90): signal the read loop to stop, drop the
connected flag, join the reader (the loop observes `stop_reading` and
exits), and close the serial handle if it is open. -/
def emg_disconnect (p : EMGProc) : EMGProc :=
  { p with
    stop_reading := true
    connected := false
    reading_thread_alive := false
    serial_is_open :=
      match p.serial_is_open with
      | some true => some false
      | other => other }

/-- Fold a list of (line, receipt-time) records through the ingestion loop. -/
def process_lines (p : EMGProc) (inputs : List (String × Int)) : EMGProc :=
  inputs.foldl (fun acc i => process_serial_line acc i.1 i.2) p

/-- Does this line update the liveness clock `last_detection_time`?  True
exactly for `SISTEMA:` status lines and successfully parsed data frames. -/
def line_is_activity (line : String) : Bool :=
  match classify_line line with
  | .status => true
  | .data_frame _ => true
  | _ => false

/-!
## Sample recorder: `GestureDatasetManager` (src/Toma_de_datos/dataset_manager.py)
-/

/-- The `features` dict consumed by `add_sample`.  `none` models an empty
(falsy) dict; `get_emg_features` and the app always build all five keys. -/
structure Features where
  emg1_raw : PyFloat
  emg2_raw : PyFloat
  emg3_raw : PyFloat
  session_time : Int
  esp32_timestamp : Int
deriving DecidableEq

/-- One `data_point` dict appended by `add_sample` (lines 52-72).
`timestamp_iso` models the `datetime.now().isoformat()` receipt time;
`extras` holds the keys optionally merged from `additional_info`
(lines 74-84). -/
structure DataPoint where
  timestamp_iso : Int
  session_id : String
  sample_number : Nat
  series_number : Nat
  gesture_id : Int
  gesture_name : String
  emg1_raw : PyFloat
  emg2_raw : PyFloat
  emg3_raw : PyFloat
  session_time : Int
  esp32_timestamp : Int
  extras : List (String × Int)
deriving DecidableEq

/-- State of a `GestureDatasetManager` (`__init__`, lines 14-22):
`self.dataset` plus the `session_info` dict.  The constant
`gesture_names` list is not needed by any claim. -/
structure DatasetManager where
  dataset : List DataPoint
  session_id : Option String
  start_time : Option Int
  total_samples : Nat
  current_session_id : Option String
deriving DecidableEq

/-- `GestureDatasetManager.__init__`. -/
def initial_manager : DatasetManager where
  dataset := []
  session_id := none
  start_time := none
  total_samples := 0
  current_session_id := none

/-- `start_new_session` (lines 24-39): install fresh `session_info` (the
generated id string is taken as a parameter here) and clear the dataset. -/
def start_new_session (m : DatasetManager) (sid : String) (now : Int) : DatasetManager :=
  { m with
    dataset := []
    session_id := some sid
    start_time := some now
    total_samples := 0
    current_session_id := some sid }

/-- Keys always present in a `data_point` dict (lines 53-72), used by the
`additional_info` duplicate filter. -/
def data_point_keys : List String :=
  ["timestamp", "session_id", "sample_number", "series_number", "gesture_id",
   "gesture_name", "emg1_raw", "emg2_raw", "emg3_raw", "session_time", "esp32_timestamp"]

/-- The `useful_keys` filter of lines 74-84: from `additional_info` keep only
`movement_id`/`esp32_timestamp` values not already present in the data point
(`esp32_timestamp` always is, so at most `movement_id` survives). -/
def sample_extras (additional_info : Option (List (String × Int))) : List (String × Int) :=
  match additional_info with
  | none => []
  | some info =>
    ["movement_id", "esp32_timestamp"].filterMap fun k =>
      if k ∈ data_point_keys then none
      else (List.lookup k info).map fun v => (k, v)

/-- `str(self.session_info.get('current_session_id', 'unknown'))`: the key is
always present, so the `'unknown'` default is dead; a stored Python `None`
stringifies to `"None"`. -/
def session_id_str (m : DatasetManager) : String :=
  match m.current_session_id with
  | some s => s
  | none => "None"

/-- `add_sample` (lines 41-94): reject a falsy `features` dict, otherwise
append a data point numbered `len(self.dataset) + 1` and bump
`session_info['total_samples']`.  `now` stands for `datetime.now()`. -/
def add_sample (m : DatasetManager) (features : Option Features) (gesture_id : Int)
    (gesture_name : String) (series_number : Nat)
    (additional_info : Option (List (String × Int))) (now : Int) : DatasetManager × Bool :=
  match features with
  | none => (m, false)
  | some f =>
    let dp : DataPoint :=
      { timestamp_iso := now
        session_id := session_id_str m
        sample_number := m.dataset.length + 1
        series_number := series_number
        gesture_id := gesture_id
        gesture_name := gesture_name
        emg1_raw := f.emg1_raw
        emg2_raw := f.emg2_raw
        emg3_raw := f.emg3_raw
        session_time := f.session_time
        esp32_timestamp := f.esp32_timestamp
        extras := sample_extras additional_info }
    ({ m with dataset := m.dataset ++ [dp], total_samples := m.total_samples + 1 }, true)

/-!
## Recorder glue: `AutoEMGApp` (src/Toma_de_datos/main_app.py)
-/

/-- The app state touched by `_on_emg_data_ready` and `_stop_session`
(UI widgets are presentation only and not modelled). -/
structure AutoEMGApp where
  dataset_manager : DatasetManager
  session_controller : Controller
  is_sensor_connected : Bool
  current_features : Option Features
  auto_capture_active : Bool
deriving DecidableEq

/-- The inline `gesture_mapping` dict of `_on_emg_data_ready` (lines 523-530):
`dict.get(name, 0)`. -/
def gesture_mapping (name : String) : Int :=
  if name = "CERRAR_MANO" then 1
  else if name = "PINZA" then 2
  else if name = "SALUDAR" then 3
  else if name = "TOMAR_OBJ" then 4
  else 0

/-- `_on_emg_data_ready` (lines 501-552).  `raw_data` is the ingestor frame
(possibly the empty dict); `features` the dict from `process_frame()`.  A
sample is recorded only when the controller is in RECORDING, auto capture is
active and `features` is truthy; the gesture id/name and series number are
read from the controller's gesture cursor at this instant, never from the
frame's `movement_id`/`movement_name`.  The `raw_data.get(...)` fallbacks in
`clean_features` are dead whenever `features` carries its keys, which every
producer (`get_emg_features`) guarantees, so `raw_data` is never consulted. -/
def on_emg_data_ready (app : AutoEMGApp) (_raw_data : Option EMGData)
    (features : Option Features) (is_connected : Bool) (now : Int) : AutoEMGApp :=
  let app1 := { app with is_sensor_connected := is_connected, current_features := features }
  match features with
  | none => app1
  | some f =>
    if app1.session_controller.state = SessionState.recording ∧ app1.auto_capture_active then
      let gi := get_current_gesture_info app1.session_controller
      let gesture_id := gesture_mapping gi.gesture_name
      let clean : Features :=
        { emg1_raw := f.emg1_raw
          emg2_raw := f.emg2_raw
          emg3_raw := f.emg3_raw
          session_time := f.session_time
          esp32_timestamp := f.esp32_timestamp }
      let r := add_sample app1.dataset_manager (some clean) gesture_id gi.gesture_name
        gi.cycle_number none now
      let ctrl :=
        if r.2 then (increment_sample_count app1.session_controller).1
        else app1.session_controller
      { app1 with dataset_manager := r.1, session_controller := ctrl }
    else app1

/-- `_stop_session` (lines 345-360) at the level of the modelled state: stop
the session controller, drop the auto-capture flag; the EMG worker and its
processor are not touched (only UI labels are updated). -/
def app_stop_session (app : AutoEMGApp) (proc : EMGProc) : AutoEMGApp × EMGProc :=
  ({ app with
      session_controller := (stop_session app.session_controller).1
      auto_capture_active := false }, proc)

/-!
## Concrete schedule run for the completion claim

Labels `["A", "B"]`, 2 user cycles, 5 s per gesture, 3 s rest, session
started at t = 0, `update` ticked at t = 0, 1, ..., 39.
-/

/-- Fold the polling loop over a list of tick instants. -/
def run_updates (c : Controller) (ts : List Int) : Controller :=
  ts.foldl (fun acc t => (update acc t).1) c

/-- The gesture/cycle pairs of the `on_recording_start` events, in order. -/
def recording_starts (c : Controller) : List (String × Nat) :=
  c.events.filterMap fun e =>
    match e with
    | SessionEvent.recording_start n k => some (n, k)
    | _ => none

/-- `configure_session(["A","B"], duration=5, rest=3, user_cycles=2)` on a
fresh controller. -/
def c4_configured : Controller :=
  (configure_session initial_controller ["A", "B"] 3 5 3 2).1

/-- The configured controller after `start_session()` at t = 0. -/
def c4_started : Controller := (start_session c4_configured 0).1

/-- Controller after ticking `update` at t = 0, 1, ..., 39. -/
def c4_final : Controller :=
  run_updates c4_started ((List.range 40).map fun n => (n : Int))

/-- Controller after ticking `update` at t = 0, 1, ..., 37. -/
def c4_at_38 : Controller :=
  run_updates c4_started ((List.range 38).map fun n => (n : Int))

/-- The controller produced by the `update` tick at t = 38 (the tick that
ends the fourth and last RECORDING window). -/
def c4_tick_38 : Controller := (update c4_at_38 38).1

/-- The status dict returned by the `update` tick at t = 38. -/
def c4_status_38 : SessionStatus := (update c4_at_38 38).2

/-!
## Recorder-call sequences and concrete fixtures
-/

/-- One recorder-side `add_sample` call: the arguments of one invocation. -/
structure RecorderInput where
  features : Option Features
  gesture_id : Int
  gesture_name : String
  series_number : Nat
  additional_info : Option (List (String × Int))
  now : Int
deriving DecidableEq

/-- Apply one `add_sample` call, tracking whether every call so far succeeded. -/
def record_step (mb : DatasetManager × Bool) (i : RecorderInput) : DatasetManager × Bool :=
  let r := add_sample mb.1 i.features i.gesture_id i.gesture_name i.series_number
    i.additional_info i.now
  (r.1, mb.2 && r.2)

/-- Apply a sequence of `add_sample` calls to a manager. -/
def record_all (m : DatasetManager) (inputs : List RecorderInput) : DatasetManager × Bool :=
  inputs.foldl record_step (m, true)

/-- A concrete non-empty features dict. -/
def ex_features : Features := ⟨⟨10, 1⟩, ⟨20, 1⟩, ⟨30, 1⟩, 10, 100⟩

/-- A concrete accepted recorder call. -/
def ex_input : RecorderInput := ⟨some ex_features, 1, "CERRAR_MANO", 1, none, 5⟩

/-- A concrete valid session configuration. -/
def ex_cfg : SessionConfig :=
  { selected_gestures := ["CERRAR_MANO", "PINZA"]
    series_count := 3
    duration_per_gesture := 5
    rest_time := 3
    total_gestures := 2
    samples_per_gesture_target := 150 }

/-- A controller sitting in a RECORDING window of the `ex_cfg` schedule. -/
def ex_recording_controller : Controller :=
  { initial_controller with
    state := SessionState.recording
    config := some ex_cfg
    total_cycles_user_defined := 3
    stats_total_recordings_planned := some 6 }

/-- App state mid-recording with auto capture active. -/
def ex_app : AutoEMGApp :=
  { dataset_manager := initial_manager
    session_controller := ex_recording_controller
    is_sensor_connected := false
    current_features := none
    auto_capture_active := true }

/-- App state with an idle controller. -/
def ex_app_idle : AutoEMGApp :=
  { dataset_manager := initial_manager
    session_controller := initial_controller
    is_sensor_connected := false
    current_features := none
    auto_capture_active := true }

/-- A connected processor that has not yet parsed any frame. -/
def p_conn : EMGProc := { initial_processor with connected := true }

/-- A placeholder queued frame. -/
def dummy_data : EMGData := ⟨0, 0, ⟨0, 0⟩, ⟨0, 0⟩, ⟨0, 0⟩, 0, "AUTO", 0⟩

/-- A connected processor whose frame queue is at capacity (100 frames). -/
def p_full : EMGProc := { p_conn with data_queue := List.replicate 100 dummy_data }

/-- The same processor with one free queue slot (99 frames). -/
def p_hole : EMGProc := { p_conn with data_queue := List.replicate 99 dummy_data }

/-- A well-formed ESP32 CSV data line. -/
def ex_line : String := "100,5,1.0,2.0,3.0,1,CERRAR_MANO"

/-- The frame `ex_line` parses to. -/
def ex_parsed : ParsedFrame := ⟨100, 5, ⟨10, 1⟩, ⟨20, 1⟩, ⟨30, 1⟩, 1, "CERRAR_MANO"⟩

set_option maxRecDepth 8000

/-!
## Helper lemmas
-/

/-- When the controller is not in RECORDING, `_on_emg_data_ready` only
refreshes the connection flag and the cached features. -/
theorem on_emg_data_ready_skip (app : AutoEMGApp) (raw : Option EMGData)
    (feats : Option Features) (conn : Bool) (now : Int)
    (h : app.session_controller.state ≠ SessionState.recording) :
    on_emg_data_ready app raw feats conn now =
      { app with is_sensor_connected := conn, current_features := feats } := by
  unfold on_emg_data_ready
  cases feats with
  | none => rfl
  | some f =>
    exact if_neg fun hand => h hand.1

/-- `stop_session` always lands in IDLE. -/
theorem stop_session_state_idle (c : Controller) :
    (stop_session c).1.state = SessionState.idle := by
  unfold stop_session
  by_cases h : c.state = SessionState.idle <;> simp [h, change_state]

/-- `stop_session` never touches the configuration. -/
theorem stop_session_preserves_config (c : Controller) :
    (stop_session c).1.config = c.config := by
  unfold stop_session
  by_cases h : c.state = SessionState.idle <;> simp [h, change_state]

/-- One ingestion-loop step never grows the queue beyond the capacity of 100. -/
theorem process_serial_line_queue_le (p : EMGProc) (line : String) (now : Int)
    (h : p.data_queue.length ≤ 100) :
    (process_serial_line p line now).data_queue.length ≤ 100 := by
  unfold process_serial_line
  cases classify_line line <;> try exact h
  by_cases hq : p.data_queue.length ≥ 100
  · have hqf : queue_full p = true := by simp [queue_full, hq]
    simpa [hqf] using h
  · have hqf : queue_full p = false := by simp [queue_full, hq]
    simp only [hqf, Bool.false_eq_true, if_false, List.length_append, List.length_singleton]
    omega

/-- Folding any record sequence through the ingestion loop keeps the queue
within capacity. -/
theorem process_lines_queue_le (inputs : List (String × Int)) :
    ∀ p : EMGProc, p.data_queue.length ≤ 100 →
      (process_lines p inputs).data_queue.length ≤ 100 := by
  induction inputs with
  | nil => intro p h; exact h
  | cons i rest ih =>
    intro p h
    simpa [process_lines] using ih _ (process_serial_line_queue_le p i.1 i.2 h)

/-- Numbering invariant of `add_sample` folds: if the dataset is numbered
`1..len` then any sequence of calls with truthy features extends it to
`1..len+k`, and the conjunction of their results is preserved. -/
theorem record_all_numbering_invariant (inputs : List RecorderInput) :
    ∀ (m : DatasetManager) (b : Bool),
      (∀ i ∈ inputs, i.features.isSome = true) →
      m.dataset.map DataPoint.sample_number = List.range' 1 m.dataset.length →
      (inputs.foldl record_step (m, b)).1.dataset.map DataPoint.sample_number
          = List.range' 1 (m.dataset.length + inputs.length) ∧
        (inputs.foldl record_step (m, b)).2 = b := by
  induction inputs with
  | nil =>
    intro m b _ hm
    simpa using hm
  | cons i rest ih =>
    intro m b h hm
    obtain ⟨f, hf⟩ := Option.isSome_iff_exists.mp (h i (List.mem_cons_self i rest))
    have hstep : record_step (m, b) i =
        ((add_sample m i.features i.gesture_id i.gesture_name i.series_number
          i.additional_info i.now).1, b && true) := by
      simp [record_step, add_sample, hf]
    have hnum : (add_sample m i.features i.gesture_id i.gesture_name i.series_number
          i.additional_info i.now).1.dataset.map DataPoint.sample_number
        = List.range' 1 (m.dataset.length + 1) := by
      simp only [add_sample, hf, List.map_append, hm]
      rw [List.range'_1_concat]
      simp [Nat.add_comm]
    have hlen : (add_sample m i.features i.gesture_id i.gesture_name i.series_number
          i.additional_info i.now).1.dataset.length = m.dataset.length + 1 := by
      simp [add_sample, hf]
    have := ih (add_sample m i.features i.gesture_id i.gesture_name i.series_number
        i.additional_info i.now).1 (b && true)
      (fun j hj => h j (List.mem_cons_of_mem i hj)) (by rw [hlen]; exact hnum)
    rw [List.foldl_cons, hstep]
    refine ⟨?_, by simpa using this.2⟩
    rw [this.1, hlen]
    congr 1
    simp [List.length_cons]
    omega

/-!
## Claim theorems
-/

/-- C1: starting a new session clears the dataset, and a sequence of N
accepted `add_sample` calls (truthy features) all succeed and yield samples
numbered 1..N in append order, with no gaps and no duplicates. -/
theorem recorder_monotonic_numbering (m : DatasetManager) (sid : String) (t0 : Int)
    (inputs : List RecorderInput) (h : ∀ i ∈ inputs, i.features.isSome = true) :
    (start_new_session m sid t0).dataset = [] ∧
    (record_all (start_new_session m sid t0) inputs).2 = true ∧
    (record_all (start_new_session m sid t0) inputs).1.dataset.map DataPoint.sample_number
      = List.range' 1 inputs.length := by
  have h0 : (start_new_session m sid t0).dataset = [] := rfl
  have hinv := record_all_numbering_invariant inputs (start_new_session m sid t0) true h
    (by rw [h0]; rfl)
  refine ⟨h0, ?_, ?_⟩
  · exact hinv.2
  · have := hinv.1
    rw [h0] at this
    simpa using this

/-- Witness for C1 at a concrete one-call session. -/
theorem recorder_monotonic_numbering_witness :
    (∀ i ∈ [ex_input], i.features.isSome = true) ∧
    (record_all (start_new_session initial_manager "s1" 0) [ex_input]).1.dataset.map
        DataPoint.sample_number = List.range' 1 1 :=
  ⟨by decide,
   (recorder_monotonic_numbering initial_manager "s1" 0 [ex_input] (by decide)).2.2⟩

/-- C3: a frame delivered while the session state machine is in any state
other than RECORDING produces no sample — the dataset and the controller
(hence all sample counters) are unchanged, and `increment_sample_count`
refuses with `False`. -/
theorem no_sample_outside_recording (app : AutoEMGApp) (raw : Option EMGData)
    (feats : Option Features) (conn : Bool) (now : Int)
    (h : app.session_controller.state ≠ SessionState.recording) :
    (on_emg_data_ready app raw feats conn now).dataset_manager = app.dataset_manager ∧
    (on_emg_data_ready app raw feats conn now).session_controller = app.session_controller ∧
    increment_sample_count app.session_controller = (app.session_controller, false) := by
  rw [on_emg_data_ready_skip app raw feats conn now h]
  refine ⟨rfl, rfl, ?_⟩
  unfold increment_sample_count
  rw [if_neg h]

/-- Witness for C3: an idle-state app discards a frame. -/
theorem no_sample_outside_recording_witness :
    ex_app_idle.session_controller.state ≠ SessionState.recording ∧
    (on_emg_data_ready ex_app_idle none (some ex_features) true 7).dataset_manager
      = ex_app_idle.dataset_manager :=
  ⟨by decide,
   (no_sample_outside_recording ex_app_idle none (some ex_features) true 7 (by decide)).1⟩

/-- C9: `stop_session` and `disconnect` are idempotent: the second call
returns no error and leaves every field exactly as the first call left it. -/
theorem stop_and_disconnect_idempotent :
    (∀ c : Controller, stop_session (stop_session c).1 = ((stop_session c).1, true)) ∧
    (∀ p : EMGProc, emg_disconnect (emg_disconnect p) = emg_disconnect p) := by
  constructor
  · intro c
    unfold stop_session
    by_cases h : c.state = SessionState.idle <;> simp [h, change_state]
  · intro p
    unfold emg_disconnect
    cases h : p.serial_is_open with
    | none => simp [h]
    | some b => cases b <;> simp [h]

/-- C2: a sample appended by `_on_emg_data_ready` carries the gesture
name/id and cycle number of the session state machine's gesture cursor at
acceptance time, and the result of the handler does not depend on the
`movement_id`/`movement_name` carried inside the ingestor frame at all
(varying `raw_data` in any way leaves the outcome unchanged). -/
theorem sample_label_bound_to_cursor (app : AutoEMGApp) (raw : Option EMGData)
    (f : Features) (conn : Bool) (now : Int)
    (hrec : app.session_controller.state = SessionState.recording)
    (hact : app.auto_capture_active = true) :
    (∃ dp : DataPoint,
      (on_emg_data_ready app raw (some f) conn now).dataset_manager.dataset
          = app.dataset_manager.dataset ++ [dp] ∧
      dp.gesture_name = (get_current_gesture_info app.session_controller).gesture_name ∧
      dp.gesture_id =
        gesture_mapping (get_current_gesture_info app.session_controller).gesture_name ∧
      dp.series_number = (get_current_gesture_info app.session_controller).cycle_number ∧
      dp.emg1_raw = f.emg1_raw ∧ dp.emg2_raw = f.emg2_raw ∧ dp.emg3_raw = f.emg3_raw) ∧
    (∀ raw2 : Option EMGData,
      on_emg_data_ready app raw2 (some f) conn now
        = on_emg_data_ready app raw (some f) conn now) := by
  constructor
  · simp only [on_emg_data_ready, hrec, hact, and_self, if_true]
    exact ⟨_, rfl, rfl, rfl, rfl, rfl, rfl, rfl⟩
  · intro raw2
    rfl

/-- Witness for C2 at a concrete recording-state app. -/
theorem sample_label_bound_to_cursor_witness :
    ex_app.session_controller.state = SessionState.recording ∧
    ex_app.auto_capture_active = true ∧
    (∃ dp : DataPoint,
      (on_emg_data_ready ex_app none (some ex_features) true 7).dataset_manager.dataset
          = ex_app.dataset_manager.dataset ++ [dp] ∧
      dp.gesture_name = (get_current_gesture_info ex_app.session_controller).gesture_name ∧
      dp.gesture_id =
        gesture_mapping (get_current_gesture_info ex_app.session_controller).gesture_name ∧
      dp.series_number = (get_current_gesture_info ex_app.session_controller).cycle_number ∧
      dp.emg1_raw = ex_features.emg1_raw ∧ dp.emg2_raw = ex_features.emg2_raw ∧
      dp.emg3_raw = ex_features.emg3_raw) :=
  ⟨rfl, rfl,
   (sample_label_bound_to_cursor ex_app none ex_features true 7 rfl rfl).1⟩

/-- C5 counterexample: `configure_session` with an empty gesture list does
return an error value, but it is *not* free of state change — the session
transitions from IDLE to ERROR via the explicit error signal. -/
theorem configure_invalid_enters_error_state :
    (configure_session initial_controller [] 3 5 3 0).2 = false ∧
    initial_controller.state = SessionState.idle ∧
    (configure_session initial_controller [] 3 5 3 0).1.state = SessionState.error ∧
    (configure_session initial_controller [] 3 5 3 0).1.state ≠ initial_controller.state := by
  decide

/-- C5 (amended): for every invalid configuration (empty gesture list or
out-of-bounds duration), `configure_session` returns `False` without
throwing and leaves the configuration, cursors and statistics untouched,
but the session state transitions to ERROR (the explicit error signal), so
the observable state is not identical to the pre-call state. -/
theorem configure_invalid_rejected_but_error_state (c : Controller) (gs : List String)
    (series dur rest cycles : Int)
    (h : gs = [] ∨ dur < 1 ∨ dur > 60) :
    (configure_session c gs series dur rest cycles).2 = false ∧
    (configure_session c gs series dur rest cycles).1.config = c.config ∧
    (configure_session c gs series dur rest cycles).1.current_gesture_index
      = c.current_gesture_index ∧
    (configure_session c gs series dur rest cycles).1.current_cycle = c.current_cycle ∧
    (configure_session c gs series dur rest cycles).1.total_cycles_user_defined
      = c.total_cycles_user_defined ∧
    (configure_session c gs series dur rest cycles).1.stats_total_samples
      = c.stats_total_samples ∧
    (configure_session c gs series dur rest cycles).1.stats_total_recordings_planned
      = c.stats_total_recordings_planned ∧
    (configure_session c gs series dur rest cycles).1.state = SessionState.error := by
  unfold configure_session
  by_cases hg : gs = []
  · simp [hg, trigger_error, change_state]
  · have hd : dur < 1 ∨ dur > 60 := h.resolve_left hg
    rw [if_neg hg, if_pos hd]
    simp [trigger_error, change_state]

/-- Witness for C5's amended theorem at a concrete invalid duration. -/
theorem configure_invalid_rejected_but_error_state_witness :
    ((["x"] : List String) = [] ∨ (0 : Int) < 1 ∨ (0 : Int) > 60) ∧
    (configure_session initial_controller ["x"] 3 0 3 0).2 = false ∧
    (configure_session initial_controller ["x"] 3 0 3 0).1.state = SessionState.error :=
  ⟨Or.inr (Or.inl (by decide)),
   (configure_invalid_rejected_but_error_state initial_controller ["x"] 3 0 3 0
      (Or.inr (Or.inl (by decide)))).1,
   (configure_invalid_rejected_but_error_state initial_controller ["x"] 3 0 3 0
      (Or.inr (Or.inl (by decide)))).2.2.2.2.2.2.2⟩

/-- C8: `_stop_session` forces the state machine to IDLE synchronously from
any state, leaves the ingestor processor (connection, read loop, latest
frame, serial handle) completely untouched, keeps the configuration and
dataset, stops sample acceptance immediately, and a subsequent
`start_session` on a configured controller succeeds. -/
theorem stop_session_forces_idle_keeps_ingestor (app : AutoEMGApp) (proc : EMGProc) :
    (app_stop_session app proc).1.session_controller.state = SessionState.idle ∧
    (app_stop_session app proc).2 = proc ∧
    (app_stop_session app proc).1.session_controller.config = app.session_controller.config ∧
    (app_stop_session app proc).1.dataset_manager = app.dataset_manager ∧
    (increment_sample_count (app_stop_session app proc).1.session_controller).2 = false ∧
    (∀ raw feats conn now,
      (on_emg_data_ready (app_stop_session app proc).1 raw feats conn now).dataset_manager
        = (app_stop_session app proc).1.dataset_manager) ∧
    (app.session_controller.config.isSome = true →
      ∀ t : Int, (start_session (app_stop_session app proc).1.session_controller t).2 = true) := by
  have hst : (app_stop_session app proc).1.session_controller.state = SessionState.idle :=
    stop_session_state_idle app.session_controller
  have hne : (app_stop_session app proc).1.session_controller.state
      ≠ SessionState.recording := by
    rw [hst]; intro hcon; cases hcon
  refine ⟨hst, rfl, stop_session_preserves_config app.session_controller, rfl, ?_, ?_, ?_⟩
  · unfold increment_sample_count
    rw [if_neg hne]
  · intro raw feats conn now
    rw [on_emg_data_ready_skip _ raw feats conn now hne]
  · intro hcfg t
    obtain ⟨cfg, hc⟩ := Option.isSome_iff_exists.mp hcfg
    have hcf : (app_stop_session app proc).1.session_controller.config = some cfg := by
      show (stop_session app.session_controller).1.config = some cfg
      rw [stop_session_preserves_config app.session_controller, hc]
    unfold start_session
    rw [if_neg (fun hne2 => hne2 hst), hcf]

/-- Witness for C8: after stopping a configured mid-recording app, a fresh
`start_session` succeeds. -/
theorem stop_session_forces_idle_keeps_ingestor_witness :
    ex_app.session_controller.config.isSome = true ∧
    (app_stop_session ex_app p_conn).1.session_controller.state = SessionState.idle ∧
    (start_session (app_stop_session ex_app p_conn).1.session_controller 0).2 = true :=
  ⟨rfl, (stop_session_forces_idle_keeps_ingestor ex_app p_conn).1,
   (stop_session_forces_idle_keeps_ingestor ex_app p_conn).2.2.2.2.2.2 rfl 0⟩

/-- C6 counterexample: an ESP32 `SISTEMA:` status line — not a valid data
frame (no frame is cached) — *does* update the liveness clock, so
`is_sensor_connected` reports live two seconds later even though no valid
frame was ever parsed. -/
theorem status_line_updates_liveness_clock :
    (process_serial_line p_conn "SISTEMA: ok" 10).last_emg_data = none ∧
    (process_serial_line p_conn "SISTEMA: ok" 10).last_detection_time = some 10 ∧
    is_sensor_connected (process_serial_line p_conn "SISTEMA: ok" 10) 12 = true := by
  decide

/-- C6 (amended): `is_sensor_connected` is true iff the connection flag is
set and the activity clock is within 5 seconds, where the clock is advanced
by `SISTEMA:` status lines as well as by valid data frames; every other
line — including malformed CSV records (`junk`) — leaves the processor
state untouched (no crash, no clock update). -/
theorem liveness_clock_characterization (p : EMGProc) (line : String) (now : Int) :
    (line_is_activity line = true →
      (process_serial_line p line now).last_detection_time = some now) ∧
    (line_is_activity line = false →
      (process_serial_line p line now).last_detection_time = p.last_detection_time) ∧
    (classify_line line = LineClass.junk → process_serial_line p line now = p) ∧
    (is_sensor_connected p now = true ↔
      p.connected = true ∧ ∃ t : Int, p.last_detection_time = some t ∧ now - t ≤ 5) := by
  refine ⟨?_, ?_, ?_, ?_⟩
  · intro h
    unfold line_is_activity at h
    unfold process_serial_line
    cases hc : classify_line line <;> rw [hc] at h <;> first | rfl | simp at h
  · intro h
    unfold line_is_activity at h
    unfold process_serial_line
    cases hc : classify_line line <;> rw [hc] at h <;> first | rfl | simp at h
  · intro hj
    unfold process_serial_line
    rw [hj]
  · unfold is_sensor_connected
    cases hcn : p.connected with
    | false => simp
    | true =>
      cases hlt : p.last_detection_time with
      | none => simp
      | some t => simp

/-- Witness for C6's amended theorem on a concrete status line. -/
theorem liveness_clock_characterization_witness :
    line_is_activity "SISTEMA: ok" = true ∧
    (process_serial_line p_conn "SISTEMA: ok" 10).last_detection_time = some 10 :=
  ⟨by decide, (liveness_clock_characterization p_conn "SISTEMA: ok" 10).1 (by decide)⟩

/-- C7 counterexample: pushing a valid frame into a full queue drops the
frame (queue unchanged) while still overwriting the latest-frame cache, but
*no drop counter increments*: every non-queue field of the processor ends up
exactly as it does when the same frame is accepted into a non-full queue
(`_sample_count` bumps in both cases — it counts parsed frames, not drops),
so no state distinguishes the drop. -/
theorem queue_drop_has_no_counter :
    (process_serial_line p_full ex_line 7).data_queue = p_full.data_queue ∧
    (process_serial_line p_full ex_line 7).last_emg_data = some (mk_emg_data ex_parsed 7) ∧
    (process_serial_line p_hole ex_line 7).data_queue
      = p_hole.data_queue ++ [mk_emg_data ex_parsed 7] ∧
    (process_serial_line p_full ex_line 7).sample_count
      = (process_serial_line p_hole ex_line 7).sample_count ∧
    (process_serial_line p_full ex_line 7).last_detection_time
      = (process_serial_line p_hole ex_line 7).last_detection_time ∧
    (process_serial_line p_full ex_line 7).current_movement
      = (process_serial_line p_hole ex_line 7).current_movement ∧
    (process_serial_line p_full ex_line 7).session_active
      = (process_serial_line p_hole ex_line 7).session_active ∧
    (process_serial_line p_full ex_line 7).connected
      = (process_serial_line p_hole ex_line 7).connected := by
  decide

/-- C7 (amended): the guarded `put` never grows the queue beyond the fixed
capacity 100 (so it never blocks); when the queue is full the new frame is
silently dropped (queue unchanged — the source keeps no drop counter) while
the latest-frame cache is still overwritten and `_sample_count` still
increments; and any sequence of pushes preserves the capacity bound. -/
theorem queue_drop_policy (p : EMGProc) (line : String) (now : Int) :
    (p.data_queue.length ≤ 100 →
      (process_serial_line p line now).data_queue.length ≤ 100) ∧
    (queue_full p = true → (process_serial_line p line now).data_queue = p.data_queue) ∧
    (∀ f, classify_line line = LineClass.data_frame f →
      (process_serial_line p line now).last_emg_data = some (mk_emg_data f now) ∧
      (process_serial_line p line now).sample_count = some (p.sample_count.getD 0 + 1)) ∧
    (∀ inputs : List (String × Int), p.data_queue.length ≤ 100 →
      (process_lines p inputs).data_queue.length ≤ 100) := by
  refine ⟨process_serial_line_queue_le p line now, ?_, ?_,
    fun inputs h => process_lines_queue_le inputs p h⟩
  · intro hq
    unfold process_serial_line
    cases classify_line line <;> try rfl
    simp [hq]
  · intro f hf
    unfold process_serial_line
    rw [hf]
    exact ⟨rfl, rfl⟩

/-- Witness for C7's amended theorem: a full queue is left unchanged. -/
theorem queue_drop_policy_witness :
    queue_full p_full = true ∧
    (process_serial_line p_full ex_line 7).data_queue = p_full.data_queue :=
  ⟨by decide, (queue_drop_policy p_full ex_line 7).2.1 (by decide)⟩

/-- C4 counterexample: on the `["A","B"]`, 2-cycle schedule, the `update`
tick at t = 38 — the tick whose elapsed-time check ends the fourth and last
RECORDING window — already reports `progress_percentage = 100` while the
state is still RESTING, one tick before the transition to COMPLETED: the
progress formula counts the fourth recording as finished as soon as the
gesture cursor advances past it. -/
theorem progress_hits_100_in_resting :
    c4_status_38.state = SessionState.resting ∧
    c4_status_38.state ≠ SessionState.completed ∧
    c4_status_38.progress_percentage = 100 := by
  refine ⟨by decide, by decide, ?_⟩
  show (get_session_status c4_tick_38).progress_percentage = 100
  have h1 : c4_tick_38.stats_total_recordings_planned = some 4 := by decide
  have h2 : c4_tick_38.current_cycle = 1 := by decide
  have h3 : c4_tick_38.current_gesture_index = 2 := by decide
  have h4 : num_gestures c4_tick_38 = 2 := by decide
  have hp : (get_session_status c4_tick_38).progress_percentage =
      (match c4_tick_38.stats_total_recordings_planned with
       | none => (0 : ℚ)
       | some planned =>
         if planned > 0 then
           min 100 ((((c4_tick_38.current_cycle * num_gestures c4_tick_38
             + c4_tick_38.current_gesture_index : Nat) : ℚ) / (planned : ℚ)) * 100)
         else 0) := rfl
  rw [hp, h1, h2, h3, h4]
  show (if (4 : Int) > 0
      then min 100 ((((1 * 2 + 2 : Nat) : ℚ) / ((4 : Int) : ℚ)) * 100) else 0) = 100
  norm_num

/-- C4 (amended): configuring labels `["A","B"]` with 2 user cycles,
starting the session and ticking past all durations drives the machine
through exactly 4 RECORDING windows in the order A,B,A,B and ends in
COMPLETED with progress 100 — but progress already reports 100 during the
final RESTING interval after the fourth recording ends (see the
counterexample), so 100 is not reached *only* at completion. -/
theorem schedule_completion_run :
    recording_starts c4_final = [("A", 1), ("B", 1), ("A", 2), ("B", 2)] ∧
    c4_final.state = SessionState.completed ∧
    (get_session_status c4_final).progress_percentage = 100 := by
  refine ⟨by decide, by decide, ?_⟩
  have h1 : c4_final.stats_total_recordings_planned = some 4 := by decide
  have h2 : c4_final.current_cycle = 2 := by decide
  have h3 : c4_final.current_gesture_index = 0 := by decide
  have h4 : num_gestures c4_final = 2 := by decide
  have hp : (get_session_status c4_final).progress_percentage =
      (match c4_final.stats_total_recordings_planned with
       | none => (0 : ℚ)
       | some planned =>
         if planned > 0 then
           min 100 ((((c4_final.current_cycle * num_gestures c4_final
             + c4_final.current_gesture_index : Nat) : ℚ) / (planned : ℚ)) * 100)
         else 0) := rfl
  rw [hp, h1, h2, h3, h4]
  show (if (4 : Int) > 0
      then min 100 ((((2 * 2 + 0 : Nat) : ℚ) / ((4 : Int) : ℚ)) * 100) else 0) = 100
  norm_num

/-- On a freshly configured cursor (cycle 0, index 0, positive cycle budget,
non-empty gesture list), `_start_next_recording` enters COUNTDOWN with the
configured rest time loaded as the countdown. -/
theorem start_next_recording_fresh (c : Controller) (cfg : SessionConfig)
    (hcfg : c.config = some cfg) (hcy : c.current_cycle = 0)
    (hidx : c.current_gesture_index = 0)
    (hlen : 0 < cfg.selected_gestures.length)
    (hpos : 0 < c.total_cycles_user_defined) :
    (start_next_recording c).state = SessionState.countdown ∧
    (start_next_recording c).countdown_remaining = cfg.rest_time := by
  have hA : ¬((c.current_cycle : Int) ≥ c.total_cycles_user_defined) := by
    rw [hcy]
    push_cast
    omega
  have hB : ¬(c.current_gesture_index ≥ num_gestures c) := by
    rw [hidx]
    unfold num_gestures
    rw [hcfg]
    simpa using List.length_pos.mp hlen
  unfold start_next_recording
  rw [if_neg hA, if_neg hB]
  unfold prepare_recording change_state
  refine ⟨rfl, ?_⟩
  show cfg_rest_time c = cfg.rest_time
  unfold cfg_rest_time
  rw [hcfg]
  rfl

/-- C10: `configure_session` validates only the gesture list and the
per-gesture duration — any non-empty list with a duration in 1..60 is
accepted regardless of `rest_time` and the cycle counts (zero or negative
values included), the accepted rest time is stored unchanged, and it is then
loaded directly as the pre-recording countdown by `_start_next_recording`. -/
theorem configure_validates_only_gestures_and_duration (c : Controller) (gs : List String)
    (series dur rest cycles : Int)
    (hg : gs ≠ []) (h1 : 1 ≤ dur) (h2 : dur ≤ 60) :
    (configure_session c gs series dur rest cycles).2 = true ∧
    ((configure_session c gs series dur rest cycles).1.config.map SessionConfig.rest_time)
      = some rest ∧
    (configure_session c gs series dur rest cycles).1.total_cycles_user_defined
      = (if cycles > 0 then cycles else series) ∧
    (0 < (if cycles > 0 then cycles else series) →
      (start_next_recording (configure_session c gs series dur rest cycles).1).state
        = SessionState.countdown ∧
      (start_next_recording (configure_session c gs series dur rest cycles).1).countdown_remaining
        = rest) := by
  have hnd : ¬(dur < 1 ∨ dur > 60) := by omega
  unfold configure_session
  rw [if_neg hg, if_neg hnd]
  refine ⟨rfl, rfl, rfl, ?_⟩
  intro hpos
  refine start_next_recording_fresh _
    ⟨gs, series, dur, rest, gs.length, 30 * dur⟩ ?_ ?_ ?_ ?_ ?_
  · rfl
  · rfl
  · rfl
  · exact List.length_pos.mpr hg
  · exact hpos

/-- Witness for C10: one gesture, duration 5, a *negative* rest time and a
*negative* user cycle count are accepted, and the countdown is loaded with
the negative rest time. -/
theorem configure_validates_only_gestures_and_duration_witness :
    (["CERRAR_MANO"] : List String) ≠ [] ∧
    (configure_session initial_controller ["CERRAR_MANO"] 2 5 (-2) (-3)).2 = true ∧
    (start_next_recording
        (configure_session initial_controller ["CERRAR_MANO"] 2 5 (-2) (-3)).1).countdown_remaining
      = -2 :=
  ⟨by decide,
   (configure_validates_only_gestures_and_duration initial_controller ["CERRAR_MANO"]
      2 5 (-2) (-3) (by decide) (by decide) (by decide)).1,
   ((configure_validates_only_gestures_and_duration initial_controller ["CERRAR_MANO"]
      2 5 (-2) (-3) (by decide) (by decide) (by decide)).2.2.2 (by decide)).2⟩
